import Mathlib

/-!
Verification of the BountyForge core: attestation registration
(`attest_solution.rs`), solution submission (`submit_solution.rs`) and
settlement (`settle_bounty.rs`), shallowly embedded from the Rust/Anchor
source. Machine integers (`u64`) are modelled as `Nat` together with an
explicit bound `U64MAX`; Anchor's transactional semantics (a failing
instruction commits no account mutation) is modelled by a `raw` function
that records the source's sequential mutation order and a `tx` wrapper
that commits the mutated accounts only on success.
-/

namespace BountyForge

/-- Maximum value representable in a `u64` field. -/
def U64MAX : Nat := 2 ^ 64 - 1

/-- `u64::checked_add`: `some (a + b)` when the sum is representable,
`none` on overflow. -/
def checked_add (a b : Nat) : Option Nat :=
  if a + b ≤ U64MAX then some (a + b) else none

/-- Bounty lifecycle states, from the `BountyStatus` enum. -/
inductive BountyStatus
  | Open
  | Submitted
  | Settled
deriving DecidableEq, Repr

/-- Modelled from the spec: the repository's `state.rs` is not among the
provided sources, so the `Bounty` record's fields are reconstructed from
§3 of the spec and the fields the instruction handlers read
(`bounty.id`, `bounty.creator`, `bounty.reward`, `bounty.status`,
`bounty.solution_hash`, `bounty.bump`). Identities (`Pubkey`) are `Nat`
with `0` standing for `Pubkey::default()`; the 32-byte solution hash is
a `Nat` since only equality on it is used. -/
structure Bounty where
  id : Nat
  creator : Nat
  reward : Nat
  status : BountyStatus
  solution_hash : Option Nat
  bump : Nat
deriving DecidableEq, Repr

/-- Modelled from the spec: `state.rs` is absent; fields from §3 of the
spec and the `set_inner` call in `attest_solution.rs`. -/
structure Attestation where
  solution_id : Nat
  solution_hash : Nat
  timestamp : Int
  agent : Nat
  verified : Bool
  bump : Nat
deriving DecidableEq, Repr

/-- Modelled from the spec: `state.rs` is absent; fields from §3 of the
spec and the `set_inner` call in `submit_solution.rs`. -/
structure Reputation where
  agent : Nat
  score : Nat
  successful_bounties : Nat
  failed_bounties : Nat
  total_earned : Nat
  bump : Nat
deriving DecidableEq, Repr

/-- A zero-initialized `Reputation` account, as produced by
`init_if_needed` before the handler runs (`Pubkey::default()` is `0`). -/
def defaultReputation : Reputation :=
  { agent := 0, score := 0, successful_bounties := 0, failed_bounties := 0
    total_earned := 0, bump := 0 }

/-- An SPL token account: `owner`, `mint` and `amount` are the fields the
settle instruction's constraints and the token transfer read. -/
structure TokenAccount where
  owner : Nat
  mint : Nat
  amount : Nat
deriving DecidableEq, Repr

/-- The program's error taxonomy. The named variants appear in the
instruction sources (`errors.rs` itself is absent). `DuplicateAttestation`
is modelled from the spec: it names the failure of Anchor's `init`
constraint when an attestation already exists at the derived address.
`ConstraintViolation` stands for Anchor's anonymous token-account
constraint failures, `TransferFailed` for an SPL transfer failure and
`AccountNotFound` for a missing account at the runtime level. -/
inductive BountyForgeError
  | BountyNotOpen
  | BountyAlreadySubmitted
  | AttestationOwnerMismatch
  | SolutionHashMismatch
  | ReputationScoreOverflow
  | BountyNotSubmitted
  | UnauthorizedSettlement
  | ReputationOwnerMismatch
  | ReputationOverflow
  | DuplicateAttestation
  | ConstraintViolation
  | TransferFailed
  | AccountNotFound
deriving DecidableEq, Repr

/-- SPL token `transfer` semantics: moves `amount` from `source` to
`dest`, failing when the source balance is insufficient or the
destination balance would overflow a `u64`. -/
def spl_transfer (source dest : TokenAccount) (amount : Nat) :
    Option (TokenAccount × TokenAccount) :=
  if amount ≤ source.amount ∧ dest.amount + amount ≤ U64MAX then
    some ({ source with amount := source.amount - amount },
          { dest with amount := dest.amount + amount })
  else none

/-- `SubmitSolution` accounts plus handler, in the source's evaluation
order: Anchor checks the `bounty` constraints (`status == Open` else
`BountyNotOpen`, `solution_hash.is_none()` else `BountyAlreadySubmitted`)
then the `attestation` constraint (`attestation.agent == agent.key()`
else `AttestationOwnerMismatch`); the handler then requires
`attestation.solution_hash == solution_hash` (else
`SolutionHashMismatch`), writes the bounty's hash and status, and
upserts the reputation. The result records the accounts as the raw
instruction left them, including mutations made before a late failure
(`ReputationScoreOverflow` happens after the bounty was written). -/
def submit_solution_raw (agentKey : Nat) (bounty : Bounty)
    (attestation : Attestation) (repAcc : Option Reputation)
    (solutionHash : Nat) (repBump : Nat) :
    Option BountyForgeError × Bounty × Reputation :=
  let reputation := repAcc.getD defaultReputation
  if bounty.status ≠ BountyStatus.Open then
    (some .BountyNotOpen, bounty, reputation)
  else if (bounty.solution_hash).isSome then
    (some .BountyAlreadySubmitted, bounty, reputation)
  else if attestation.agent ≠ agentKey then
    (some .AttestationOwnerMismatch, bounty, reputation)
  else if attestation.solution_hash ≠ solutionHash then
    (some .SolutionHashMismatch, bounty, reputation)
  else
    let bounty' : Bounty :=
      { bounty with solution_hash := some solutionHash
                    status := BountyStatus.Submitted }
    if reputation.agent = 0 then
      (none, bounty',
       { agent := agentKey, score := 1, successful_bounties := 0
         failed_bounties := 0, total_earned := 0, bump := repBump })
    else
      match checked_add reputation.score 1 with
      | some s => (none, bounty', { reputation with score := s })
      | none => (some .ReputationScoreOverflow, bounty', reputation)

/-- The submit instruction as a transaction: mutated accounts are
committed only when the raw run reports no error. -/
def submit_solution_tx (agentKey : Nat) (bounty : Bounty)
    (attestation : Attestation) (repAcc : Option Reputation)
    (solutionHash : Nat) (repBump : Nat) :
    Except BountyForgeError (Bounty × Reputation) :=
  match submit_solution_raw agentKey bounty attestation repAcc
      solutionHash repBump with
  | (none, b, r) => .ok (b, r)
  | (some e, _, _) => .error e

/-- `SettleBounty` accounts plus handler, in the source's evaluation
order: `bounty` constraints (`status == Submitted` else
`BountyNotSubmitted`, `solution_hash.is_some()` else
`BountyAlreadySubmitted`, `creator.key() == bounty.creator` else
`UnauthorizedSettlement`), `reputation` constraint
(`reputation.agent == agent.key()` else `ReputationOwnerMismatch`),
token-account constraints (owner and mint checks), then the handler:
SPL transfer of `bounty.reward` from the escrow to the agent's account,
overflow-checked increments of `successful_bounties` and `total_earned`
(`ReputationOverflow`), and finally `status := Settled`. The result
tuple is `(error?, bounty, reputation, agent token account, bounty token
account)` as the raw instruction left them; the reputation overflow
failures happen after the transfer already moved the balances. -/
def settle_bounty_raw (creatorKey : Nat) (bountyKey : Nat) (bounty : Bounty)
    (reputation : Reputation) (agentKey : Nat)
    (agentTok bountyTok : TokenAccount) (usdcMintKey : Nat) :
    Option BountyForgeError × Bounty × Reputation ×
      TokenAccount × TokenAccount :=
  if bounty.status ≠ BountyStatus.Submitted then
    (some .BountyNotSubmitted, bounty, reputation, agentTok, bountyTok)
  else if ¬ (bounty.solution_hash).isSome then
    (some .BountyAlreadySubmitted, bounty, reputation, agentTok, bountyTok)
  else if creatorKey ≠ bounty.creator then
    (some .UnauthorizedSettlement, bounty, reputation, agentTok, bountyTok)
  else if reputation.agent ≠ agentKey then
    (some .ReputationOwnerMismatch, bounty, reputation, agentTok, bountyTok)
  else if agentTok.owner ≠ agentKey then
    (some .ConstraintViolation, bounty, reputation, agentTok, bountyTok)
  else if agentTok.mint ≠ usdcMintKey then
    (some .ConstraintViolation, bounty, reputation, agentTok, bountyTok)
  else if bountyTok.owner ≠ bountyKey then
    (some .ConstraintViolation, bounty, reputation, agentTok, bountyTok)
  else if bountyTok.mint ≠ usdcMintKey then
    (some .ConstraintViolation, bounty, reputation, agentTok, bountyTok)
  else
    match spl_transfer bountyTok agentTok bounty.reward with
    | none =>
        (some .TransferFailed, bounty, reputation, agentTok, bountyTok)
    | some (srcAfter, dstAfter) =>
        match checked_add reputation.successful_bounties 1 with
        | none =>
            (some .ReputationOverflow, bounty, reputation,
             dstAfter, srcAfter)
        | some sb =>
            match checked_add reputation.total_earned bounty.reward with
            | none =>
                (some .ReputationOverflow, bounty,
                 { reputation with successful_bounties := sb },
                 dstAfter, srcAfter)
            | some te =>
                (none, { bounty with status := BountyStatus.Settled },
                 { reputation with successful_bounties := sb
                                   total_earned := te },
                 dstAfter, srcAfter)

/-- The settle instruction as a transaction: mutated accounts are
committed only when the raw run reports no error. -/
def settle_bounty_tx (creatorKey : Nat) (bountyKey : Nat) (bounty : Bounty)
    (reputation : Reputation) (agentKey : Nat)
    (agentTok bountyTok : TokenAccount) (usdcMintKey : Nat) :
    Except BountyForgeError
      (Bounty × Reputation × TokenAccount × TokenAccount) :=
  match settle_bounty_raw creatorKey bountyKey bounty reputation agentKey
      agentTok bountyTok usdcMintKey with
  | (none, b, r, at_, bt) => .ok (b, r, at_, bt)
  | (some e, _, _, _, _) => .error e

/-- The persistent record state the three instructions act on.
Attestations live at the address derived from the task id
(seeds `[b"attest", solution_id]`), reputations at the address derived
from the agent key (seeds `[b"rep", agent]`); both maps are therefore
keyed by those stable keys. Bounties and token accounts are keyed by
their account address (bounty creation is out of scope). -/
structure World where
  attestations : Nat → Option Attestation
  bounties : Nat → Option Bounty
  reputations : Nat → Option Reputation
  tokenAccounts : Nat → Option TokenAccount

/-- `attest_solution`: Anchor's `init` constraint fails when an
attestation already exists at the address derived from `solutionId`
(`DuplicateAttestation`); otherwise the handler `set_inner`s the new
record with the caller as `agent`, the clock's time as `timestamp` and
`verified := false`. -/
def attest_solution_step (w : World) (solutionId solutionHash agentKey : Nat)
    (now : Int) (attBump : Nat) : Except BountyForgeError World :=
  match w.attestations solutionId with
  | some _ => .error .DuplicateAttestation
  | none =>
      .ok { w with attestations := fun i =>
              if i = solutionId then
                some { solution_id := solutionId
                       solution_hash := solutionHash
                       timestamp := now, agent := agentKey
                       verified := false, bump := attBump }
              else w.attestations i }

/-- The submit instruction at the state level: the bounty account is
looked up at its address, the attestation at the task id its address is
derived from, and the reputation (`init_if_needed`) at the caller's key;
on success the mutated bounty and reputation are written back. -/
def submit_solution_step (w : World) (agentKey bountyAddr attId : Nat)
    (solutionHash : Nat) (repBump : Nat) : Except BountyForgeError World :=
  match w.bounties bountyAddr, w.attestations attId with
  | some bounty, some att =>
      match submit_solution_tx agentKey bounty att (w.reputations agentKey)
          solutionHash repBump with
      | .ok (b, r) =>
          .ok { w with
                bounties := fun k =>
                  if k = bountyAddr then some b else w.bounties k
                reputations := fun k =>
                  if k = agentKey then some r else w.reputations k }
      | .error e => .error e
  | _, _ => .error .AccountNotFound

/-- The settle instruction at the state level: the creator supplies the
bounty address, the payee agent key (whose derived address holds the
reputation record), the two token-account addresses and the mint key;
on success the mutated bounty, reputation and token accounts are
written back. -/
def settle_bounty_step (w : World)
    (creatorKey bountyAddr agentKey agentTokAddr bountyTokAddr
     usdcMintKey : Nat) : Except BountyForgeError World :=
  match w.bounties bountyAddr, w.reputations agentKey,
      w.tokenAccounts agentTokAddr, w.tokenAccounts bountyTokAddr with
  | some bounty, some reputation, some agentTok, some bountyTok =>
      match settle_bounty_tx creatorKey bountyAddr bounty reputation
          agentKey agentTok bountyTok usdcMintKey with
      | .ok (b, r, at_, bt) =>
          .ok { w with
                bounties := fun k =>
                  if k = bountyAddr then some b else w.bounties k
                reputations := fun k =>
                  if k = agentKey then some r else w.reputations k
                tokenAccounts := fun k =>
                  if k = agentTokAddr then some at_
                  else if k = bountyTokAddr then some bt
                  else w.tokenAccounts k }
      | .error e => .error e
  | _, _, _, _ => .error .AccountNotFound

/-- One invocation of a public instruction, with its signer identity and
instruction arguments. -/
inductive Op
  | attest (solutionId solutionHash agentKey : Nat) (now : Int) (b : Nat)
  | submit (agentKey bountyAddr attId solutionHash repBump : Nat)
  | settle (creatorKey bountyAddr agentKey agentTokAddr bountyTokAddr
            usdcMintKey : Nat)
deriving DecidableEq

/-- Run one instruction, returning the named error on failure. -/
def execOpE (w : World) : Op → Except BountyForgeError World
  | .attest sid h a now b => attest_solution_step w sid h a now b
  | .submit a bAddr attId h rb => submit_solution_step w a bAddr attId h rb
  | .settle c bAddr a atA btA m => settle_bounty_step w c bAddr a atA btA m

/-- Run one instruction as the ledger applies it: a failed transaction
leaves the state untouched. -/
def execOp (w : World) (op : Op) : World :=
  match execOpE w op with
  | .ok w' => w'
  | .error _ => w

/-- Run a sequence of instructions. -/
def runOps (w : World) (ops : List Op) : World :=
  ops.foldl execOp w

/-! ### Characterization lemmas for the account-level instructions -/

/-- The submit transaction succeeds exactly when the bounty is `Open`
with no solution hash, the attestation belongs to the caller and carries
the submitted hash, and the reputation upsert does not overflow. -/
theorem submit_tx_ok_iff (a : Nat) (b : Bounty) (att : Attestation)
    (repAcc : Option Reputation) (h rb : Nat) :
    (∃ out, submit_solution_tx a b att repAcc h rb = .ok out) ↔
      (b.status = .Open ∧ b.solution_hash = none ∧ att.agent = a ∧
       att.solution_hash = h ∧
       ((repAcc.getD defaultReputation).agent = 0 ∨
        (repAcc.getD defaultReputation).score + 1 ≤ U64MAX)) := by
  unfold submit_solution_tx submit_solution_raw checked_add
  split_ifs <;>
    simp_all [Option.isSome_iff_exists, Option.eq_none_iff_forall_not_mem]
  try (split_ifs <;> simp_all)
  try (split_ifs <;> simp_all)

/-- On success the submit transaction wrote exactly the submitted hash
and the `Submitted` status into the bounty. -/
theorem submit_tx_ok_bounty (a : Nat) (b : Bounty) (att : Attestation)
    (repAcc : Option Reputation) (h rb : Nat) (b' : Bounty) (r' : Reputation)
    (hok : submit_solution_tx a b att repAcc h rb = .ok (b', r')) :
    b' = { b with solution_hash := some h, status := .Submitted } := by
  unfold submit_solution_tx submit_solution_raw checked_add at hok
  split_ifs at hok <;> simp_all
  try (split_ifs at hok <;> simp_all)
  try (split_ifs at hok <;> simp_all)

/-- On success, when the reputation account was blank (freshly created by
`init_if_needed`), the handler initialized it for the caller with
score 1 and zeroed counters. -/
theorem submit_tx_ok_rep_new (a : Nat) (b : Bounty) (att : Attestation)
    (repAcc : Option Reputation) (h rb : Nat) (b' : Bounty) (r' : Reputation)
    (hok : submit_solution_tx a b att repAcc h rb = .ok (b', r'))
    (hnew : (repAcc.getD defaultReputation).agent = 0) :
    r' = { agent := a, score := 1, successful_bounties := 0
           failed_bounties := 0, total_earned := 0, bump := rb } := by
  unfold submit_solution_tx submit_solution_raw checked_add at hok
  split_ifs at hok <;> simp_all

/-- On success, when the reputation account already belonged to an agent,
the handler incremented its score by one and changed nothing else. -/
theorem submit_tx_ok_rep_old (a : Nat) (b : Bounty) (att : Attestation)
    (repAcc : Option Reputation) (h rb : Nat) (b' : Bounty) (r' : Reputation)
    (hok : submit_solution_tx a b att repAcc h rb = .ok (b', r'))
    (hold : (repAcc.getD defaultReputation).agent ≠ 0) :
    r' = { repAcc.getD defaultReputation with
           score := (repAcc.getD defaultReputation).score + 1 } := by
  unfold submit_solution_tx submit_solution_raw checked_add at hok
  split_ifs at hok <;> simp_all
  try (split_ifs at hok <;> simp_all)

/-- A bounty that is not `Open` makes submit fail with `BountyNotOpen`. -/
theorem submit_tx_err_notOpen (a : Nat) (b : Bounty) (att : Attestation)
    (repAcc : Option Reputation) (h rb : Nat)
    (hst : b.status ≠ .Open) :
    submit_solution_tx a b att repAcc h rb = .error .BountyNotOpen := by
  unfold submit_solution_tx submit_solution_raw
  split_ifs <;> simp_all

/-- An `Open` bounty that already carries a solution hash makes submit
fail with `BountyAlreadySubmitted`. -/
theorem submit_tx_err_alreadySubmitted (a : Nat) (b : Bounty)
    (att : Attestation) (repAcc : Option Reputation) (h rb : Nat)
    (hst : b.status = .Open) (hh : (b.solution_hash).isSome) :
    submit_solution_tx a b att repAcc h rb =
      .error .BountyAlreadySubmitted := by
  unfold submit_solution_tx submit_solution_raw
  split_ifs <;> simp_all

/-- An attestation not owned by the caller makes submit fail with
`AttestationOwnerMismatch`. -/
theorem submit_tx_err_owner (a : Nat) (b : Bounty) (att : Attestation)
    (repAcc : Option Reputation) (h rb : Nat)
    (hst : b.status = .Open) (hh : b.solution_hash = none)
    (hag : att.agent ≠ a) :
    submit_solution_tx a b att repAcc h rb =
      .error .AttestationOwnerMismatch := by
  unfold submit_solution_tx submit_solution_raw
  split_ifs <;> simp_all

/-- A submitted hash that differs from the attested hash makes submit
fail with `SolutionHashMismatch`. -/
theorem submit_tx_err_hash (a : Nat) (b : Bounty) (att : Attestation)
    (repAcc : Option Reputation) (h rb : Nat)
    (hst : b.status = .Open) (hh : b.solution_hash = none)
    (hag : att.agent = a) (hsh : att.solution_hash ≠ h) :
    submit_solution_tx a b att repAcc h rb =
      .error .SolutionHashMismatch := by
  unfold submit_solution_tx submit_solution_raw
  split_ifs <;> simp_all

/-- A score increment that would overflow makes submit fail with
`ReputationScoreOverflow`. -/
theorem submit_tx_err_overflow (a : Nat) (b : Bounty) (att : Attestation)
    (repAcc : Option Reputation) (h rb : Nat)
    (hst : b.status = .Open) (hh : b.solution_hash = none)
    (hag : att.agent = a) (hsh : att.solution_hash = h)
    (hold : (repAcc.getD defaultReputation).agent ≠ 0)
    (hov : U64MAX < (repAcc.getD defaultReputation).score + 1) :
    submit_solution_tx a b att repAcc h rb =
      .error .ReputationScoreOverflow := by
  unfold submit_solution_tx submit_solution_raw checked_add
  split_ifs <;> simp_all
  split_ifs <;> first
    | (simp_all; try omega)
    | omega

/-- The settle transaction succeeds exactly when the bounty is
`Submitted` with a recorded solution hash, the caller is the bounty's
creator, the supplied reputation record belongs to the supplied agent,
both token accounts have the expected owner and mint, the escrow covers
the reward, and neither the payee balance nor the reputation counters
overflow. -/
theorem settle_tx_ok_iff (c bk : Nat) (b : Bounty) (r : Reputation)
    (a : Nat) (aT bT : TokenAccount) (m : Nat) :
    (∃ out, settle_bounty_tx c bk b r a aT bT m = .ok out) ↔
      (b.status = .Submitted ∧ (b.solution_hash).isSome ∧
       c = b.creator ∧ r.agent = a ∧
       aT.owner = a ∧ aT.mint = m ∧ bT.owner = bk ∧ bT.mint = m ∧
       b.reward ≤ bT.amount ∧ aT.amount + b.reward ≤ U64MAX ∧
       r.successful_bounties + 1 ≤ U64MAX ∧
       r.total_earned + b.reward ≤ U64MAX) := by
  by_cases h1 : b.status = BountyStatus.Submitted
  case neg => simp [settle_bounty_tx, settle_bounty_raw, h1]
  by_cases h2 : (b.solution_hash).isSome
  case neg => simp [settle_bounty_tx, settle_bounty_raw, h1, h2]
  by_cases h3 : c = b.creator
  case neg => simp [settle_bounty_tx, settle_bounty_raw, h1, h2, h3]
  by_cases h4 : r.agent = a
  case neg => simp [settle_bounty_tx, settle_bounty_raw, h1, h2, h3, h4]
  by_cases h5 : aT.owner = a
  case neg =>
    simp [settle_bounty_tx, settle_bounty_raw, h1, h2, h3, h4, h5]
  by_cases h6 : aT.mint = m
  case neg =>
    simp [settle_bounty_tx, settle_bounty_raw, h1, h2, h3, h4, h5, h6]
  by_cases h7 : bT.owner = bk
  case neg =>
    simp [settle_bounty_tx, settle_bounty_raw, h1, h2, h3, h4, h5, h6, h7]
  by_cases h8 : bT.mint = m
  case neg =>
    simp [settle_bounty_tx, settle_bounty_raw, h1, h2, h3, h4, h5, h6, h7,
          h8]
  by_cases h9 : b.reward ≤ bT.amount
  case neg =>
    simp [settle_bounty_tx, settle_bounty_raw, spl_transfer, h1, h2, h3,
          h4, h5, h6, h7, h8, h9]
  by_cases h10 : aT.amount + b.reward ≤ U64MAX
  case neg =>
    simp [settle_bounty_tx, settle_bounty_raw, spl_transfer, h1, h2, h3,
          h4, h5, h6, h7, h8, h9, h10]
  by_cases h11 : r.successful_bounties + 1 ≤ U64MAX
  case neg =>
    simp [settle_bounty_tx, settle_bounty_raw, spl_transfer,
          checked_add, h1, h2, h3, h4, h5, h6, h7, h8, h9, h10, h11]
  by_cases h12 : r.total_earned + b.reward ≤ U64MAX
  case neg =>
    simp [settle_bounty_tx, settle_bounty_raw, spl_transfer,
          checked_add, h1, h2, h3, h4, h5, h6, h7, h8, h9, h10, h11, h12]
  simp [settle_bounty_tx, settle_bounty_raw, spl_transfer,
          checked_add, h1, h2, h3, h4, h5, h6, h7, h8, h9, h10, h11, h12]

/-- On success the settle transaction moved exactly `reward` from the
escrow to the payee, incremented `successful_bounties` by one and
`total_earned` by `reward`, and set the status to `Settled`. -/
theorem settle_tx_ok_shape (c bk : Nat) (b : Bounty) (r : Reputation)
    (a : Nat) (aT bT : TokenAccount) (m : Nat)
    (b' : Bounty) (r' : Reputation) (aT' bT' : TokenAccount)
    (hok : settle_bounty_tx c bk b r a aT bT m = .ok (b', r', aT', bT')) :
    b' = { b with status := .Settled } ∧
    r' = { r with successful_bounties := r.successful_bounties + 1
                  total_earned := r.total_earned + b.reward } ∧
    aT' = { aT with amount := aT.amount + b.reward } ∧
    bT' = { bT with amount := bT.amount - b.reward } := by
  by_cases h1 : b.status = BountyStatus.Submitted
  case neg => simp [settle_bounty_tx, settle_bounty_raw, h1] at hok
  by_cases h2 : (b.solution_hash).isSome
  case neg => simp [settle_bounty_tx, settle_bounty_raw, h1, h2] at hok
  by_cases h3 : c = b.creator
  case neg =>
    simp [settle_bounty_tx, settle_bounty_raw, h1, h2, h3] at hok
  by_cases h4 : r.agent = a
  case neg =>
    simp [settle_bounty_tx, settle_bounty_raw, h1, h2, h3, h4] at hok
  by_cases h5 : aT.owner = a
  case neg =>
    simp [settle_bounty_tx, settle_bounty_raw, h1, h2, h3, h4, h5] at hok
  by_cases h6 : aT.mint = m
  case neg =>
    simp [settle_bounty_tx, settle_bounty_raw, h1, h2, h3, h4, h5,
          h6] at hok
  by_cases h7 : bT.owner = bk
  case neg =>
    simp [settle_bounty_tx, settle_bounty_raw, h1, h2, h3, h4, h5, h6,
          h7] at hok
  by_cases h8 : bT.mint = m
  case neg =>
    simp [settle_bounty_tx, settle_bounty_raw, h1, h2, h3, h4, h5, h6, h7,
          h8] at hok
  by_cases h9 : b.reward ≤ bT.amount
  case neg =>
    simp [settle_bounty_tx, settle_bounty_raw, spl_transfer, h1, h2, h3,
          h4, h5, h6, h7, h8, h9] at hok
  by_cases h10 : aT.amount + b.reward ≤ U64MAX
  case neg =>
    simp [settle_bounty_tx, settle_bounty_raw, spl_transfer, h1, h2, h3,
          h4, h5, h6, h7, h8, h9, h10] at hok
  by_cases h11 : r.successful_bounties + 1 ≤ U64MAX
  case neg =>
    simp [settle_bounty_tx, settle_bounty_raw, spl_transfer,
          checked_add, h1, h2, h3, h4, h5, h6, h7, h8, h9, h10, h11] at hok
  by_cases h12 : r.total_earned + b.reward ≤ U64MAX
  case neg =>
    simp [settle_bounty_tx, settle_bounty_raw, spl_transfer,
          checked_add, h1, h2, h3, h4, h5, h6, h7, h8, h9, h10, h11, h12] at hok
  simp [settle_bounty_tx, settle_bounty_raw, spl_transfer,
          checked_add, h1, h2, h3, h4, h5, h6, h7, h8, h9, h10, h11, h12] at hok
  simp_all

/-- A bounty that is not `Submitted` makes settle fail with
`BountyNotSubmitted`. -/
theorem settle_tx_err_notSubmitted (c bk : Nat) (b : Bounty)
    (r : Reputation) (a : Nat) (aT bT : TokenAccount) (m : Nat)
    (hst : b.status ≠ .Submitted) :
    settle_bounty_tx c bk b r a aT bT m = .error .BountyNotSubmitted := by
  simp [settle_bounty_tx, settle_bounty_raw, hst]

/-- A caller other than the bounty's creator makes settle fail with
`UnauthorizedSettlement`. -/
theorem settle_tx_err_unauthorized (c bk : Nat) (b : Bounty)
    (r : Reputation) (a : Nat) (aT bT : TokenAccount) (m : Nat)
    (hst : b.status = .Submitted) (hh : (b.solution_hash).isSome)
    (hc : c ≠ b.creator) :
    settle_bounty_tx c bk b r a aT bT m =
      .error .UnauthorizedSettlement := by
  simp [settle_bounty_tx, settle_bounty_raw, hst, hh, hc]

/-- A reputation record whose `agent` differs from the supplied agent
makes settle fail with `ReputationOwnerMismatch`. -/
theorem settle_tx_err_repOwner (c bk : Nat) (b : Bounty)
    (r : Reputation) (a : Nat) (aT bT : TokenAccount) (m : Nat)
    (hst : b.status = .Submitted) (hh : (b.solution_hash).isSome)
    (hc : c = b.creator) (hra : r.agent ≠ a) :
    settle_bounty_tx c bk b r a aT bT m =
      .error .ReputationOwnerMismatch := by
  simp [settle_bounty_tx, settle_bounty_raw, hst, hh, hc, hra]

/-- An overflowing `successful_bounties` increment makes settle fail with
`ReputationOverflow`. -/
theorem settle_tx_err_overflow_sb (c bk : Nat) (b : Bounty)
    (r : Reputation) (a : Nat) (aT bT : TokenAccount) (m : Nat)
    (hst : b.status = .Submitted) (hh : (b.solution_hash).isSome)
    (hc : c = b.creator) (hra : r.agent = a)
    (h5 : aT.owner = a) (h6 : aT.mint = m) (h7 : bT.owner = bk)
    (h8 : bT.mint = m) (h9 : b.reward ≤ bT.amount)
    (h10 : aT.amount + b.reward ≤ U64MAX)
    (hov : U64MAX < r.successful_bounties + 1) :
    settle_bounty_tx c bk b r a aT bT m = .error .ReputationOverflow := by
  have hov' : ¬ (r.successful_bounties + 1 ≤ U64MAX) := by omega
  simp [settle_bounty_tx, settle_bounty_raw, spl_transfer,
          checked_add, hst, hh, hc, hra, h5, h6, h7, h8, h9, h10, hov']

/-- An overflowing `total_earned` increment makes settle fail with
`ReputationOverflow`. -/
theorem settle_tx_err_overflow_te (c bk : Nat) (b : Bounty)
    (r : Reputation) (a : Nat) (aT bT : TokenAccount) (m : Nat)
    (hst : b.status = .Submitted) (hh : (b.solution_hash).isSome)
    (hc : c = b.creator) (hra : r.agent = a)
    (h5 : aT.owner = a) (h6 : aT.mint = m) (h7 : bT.owner = bk)
    (h8 : bT.mint = m) (h9 : b.reward ≤ bT.amount)
    (h10 : aT.amount + b.reward ≤ U64MAX)
    (h11 : r.successful_bounties + 1 ≤ U64MAX)
    (hov : U64MAX < r.total_earned + b.reward) :
    settle_bounty_tx c bk b r a aT bT m = .error .ReputationOverflow := by
  have hov' : ¬ (r.total_earned + b.reward ≤ U64MAX) := by omega
  simp [settle_bounty_tx, settle_bounty_raw, spl_transfer,
          checked_add, hst, hh, hc, hra, h5, h6, h7, h8, h9, h10, h11, hov']

/-! ### Inversion lemmas for the state-level instructions -/

/-- A successful attest call found no attestation at the task id,
created exactly one there, and left every other component alone. -/
theorem attest_step_ok_inv (w : World) (sid h a : Nat) (now : Int)
    (bp : Nat) (w' : World)
    (hok : attest_solution_step w sid h a now bp = .ok w') :
    w.attestations sid = none ∧
    w'.attestations = (fun i => if i = sid then
        some { solution_id := sid, solution_hash := h, timestamp := now
               agent := a, verified := false, bump := bp }
      else w.attestations i) ∧
    w'.bounties = w.bounties ∧ w'.reputations = w.reputations ∧
    w'.tokenAccounts = w.tokenAccounts := by
  unfold attest_solution_step at hok
  split at hok
  case _ => cases hok
  case _ hnone =>
    cases hok
    exact ⟨hnone, rfl, rfl, rfl, rfl⟩

/-- A successful state-level submit decomposes into its account lookups,
a successful account-level transaction, and write-backs of exactly the
bounty and the caller's reputation. -/
theorem submit_step_ok_inv (w : World) (a bAddr attId h rb : Nat)
    (w' : World)
    (hok : submit_solution_step w a bAddr attId h rb = .ok w') :
    ∃ bounty att b2 r2,
      w.bounties bAddr = some bounty ∧ w.attestations attId = some att ∧
      submit_solution_tx a bounty att (w.reputations a) h rb = .ok (b2, r2) ∧
      w'.attestations = w.attestations ∧
      w'.tokenAccounts = w.tokenAccounts ∧
      w'.bounties = (fun k => if k = bAddr then some b2 else w.bounties k) ∧
      w'.reputations =
        (fun k => if k = a then some r2 else w.reputations k) := by
  unfold submit_solution_step at hok
  split at hok
  case _ bounty att hbb haa =>
    split at hok
    case _ b2 r2 htx =>
      cases hok
      exact ⟨bounty, att, b2, r2, hbb, haa, htx, rfl, rfl, rfl, rfl⟩
    case _ => cases hok
  case _ => cases hok

/-- A successful state-level settle decomposes into its account lookups,
a successful account-level transaction, and write-backs of exactly the
bounty, the payee's reputation and the two token accounts. -/
theorem settle_step_ok_inv (w : World) (c bAddr a atA btA m : Nat)
    (w' : World)
    (hok : settle_bounty_step w c bAddr a atA btA m = .ok w') :
    ∃ bounty rep aT bT b2 r2 aT2 bT2,
      w.bounties bAddr = some bounty ∧ w.reputations a = some rep ∧
      w.tokenAccounts atA = some aT ∧ w.tokenAccounts btA = some bT ∧
      settle_bounty_tx c bAddr bounty rep a aT bT m =
        .ok (b2, r2, aT2, bT2) ∧
      w'.attestations = w.attestations ∧
      w'.bounties = (fun k => if k = bAddr then some b2 else w.bounties k) ∧
      w'.reputations =
        (fun k => if k = a then some r2 else w.reputations k) ∧
      w'.tokenAccounts = (fun k => if k = atA then some aT2
        else if k = btA then some bT2 else w.tokenAccounts k) := by
  unfold settle_bounty_step at hok
  split at hok
  case _ bounty rep aT bT hbb hrr haT hbT =>
    split at hok
    case _ b2 r2 aT2 bT2 htx =>
      cases hok
      exact ⟨bounty, rep, aT, bT, b2, r2, aT2, bT2, hbb, hrr, haT, hbT,
             htx, rfl, rfl, rfl, rfl⟩
    case _ => cases hok
  case _ => cases hok

/-- A failed instruction commits nothing: the ledger state is unchanged. -/
theorem execOp_of_error (w : World) (op : Op) (e : BountyForgeError)
    (he : execOpE w op = .error e) : execOp w op = w := by
  unfold execOp
  rw [he]

/-- A successful instruction commits the state the instruction built. -/
theorem execOp_of_ok (w : World) (op : Op) (w' : World)
    (he : execOpE w op = .ok w') : execOp w op = w' := by
  unfold execOp
  rw [he]

theorem execOp_bounty_transition (w : World) (op : Op) (k : Nat)
    (b b' : Bounty) (hb : w.bounties k = some b)
    (hb' : (execOp w op).bounties k = some b') :
    b' = b ∨ (b.status = .Open ∧ b'.status = .Submitted) ∨
      (b.status = .Submitted ∧ b'.status = .Settled) := by
  cases hE : execOpE w op with
  | error e =>
    rw [execOp_of_error w op e hE] at hb'
    rw [hb] at hb'
    exact Or.inl (Option.some_inj.mp hb').symm
  | ok w2 =>
    rw [execOp_of_ok w op w2 hE] at hb'
    cases op with
    | attest sid h a now bp =>
        obtain ⟨-, -, hbs, -, -⟩ := attest_step_ok_inv w sid h a now bp w2 hE
        rw [hbs, hb] at hb'
        exact Or.inl (Option.some_inj.mp hb').symm
    | submit a bAddr attId h rb =>
        obtain ⟨bounty, att, b2, r2, hbb, haa, htx, -, -, hbs, -⟩ :=
          submit_step_ok_inv w a bAddr attId h rb w2 hE
        simp only [hbs] at hb'
        by_cases hk : k = bAddr
        · rw [hk] at hb
          rw [hb] at hbb
          cases hbb
          rw [if_pos hk] at hb'
          have hopen := ((submit_tx_ok_iff a b att (w.reputations a) h rb).mp
            ⟨(b2, r2), htx⟩).1
          have hshape := submit_tx_ok_bounty a b att (w.reputations a) h rb
            b2 r2 htx
          refine Or.inr (Or.inl ⟨hopen, ?_⟩)
          rw [← Option.some_inj.mp hb', hshape]
        · rw [if_neg hk, hb] at hb'
          exact Or.inl (Option.some_inj.mp hb').symm
    | settle c bAddr a atA btA m =>
        obtain ⟨bounty, rep, aT, bT, b2, r2, aT2, bT2, hbb, hrr, haT, hbT,
          htx, -, hbs, -, -⟩ := settle_step_ok_inv w c bAddr a atA btA m w2 hE
        simp only [hbs] at hb'
        by_cases hk : k = bAddr
        · rw [hk] at hb
          rw [hb] at hbb
          cases hbb
          rw [if_pos hk] at hb'
          have hsub := ((settle_tx_ok_iff c bAddr b rep a aT bT m).mp
            ⟨(b2, r2, aT2, bT2), htx⟩).1
          have hshape := (settle_tx_ok_shape c bAddr b rep a aT bT m
            b2 r2 aT2 bT2 htx).1
          refine Or.inr (Or.inr ⟨hsub, ?_⟩)
          rw [← Option.some_inj.mp hb', hshape]
        · rw [if_neg hk, hb] at hb'
          exact Or.inl (Option.some_inj.mp hb').symm

/-- When the looked-up accounts exist and the account-level submit
transaction fails, the state-level submit fails with the same error. -/
theorem submit_step_err_of_tx (w : World) (a bAddr attId h rb : Nat)
    (bounty : Bounty) (att : Attestation) (e : BountyForgeError)
    (hbb : w.bounties bAddr = some bounty)
    (haa : w.attestations attId = some att)
    (he : submit_solution_tx a bounty att (w.reputations a) h rb =
      .error e) :
    submit_solution_step w a bAddr attId h rb = .error e := by
  simp only [submit_solution_step, hbb, haa, he]

/-- When the looked-up accounts exist and the account-level settle
transaction fails, the state-level settle fails with the same error. -/
theorem settle_step_err_of_tx (w : World) (c bAddr a atA btA m : Nat)
    (bounty : Bounty) (rep : Reputation) (aT bT : TokenAccount)
    (e : BountyForgeError)
    (hbb : w.bounties bAddr = some bounty)
    (hrr : w.reputations a = some rep)
    (haT : w.tokenAccounts atA = some aT)
    (hbT : w.tokenAccounts btA = some bT)
    (he : settle_bounty_tx c bAddr bounty rep a aT bT m = .error e) :
    settle_bounty_step w c bAddr a atA btA m = .error e := by
  simp only [settle_bounty_step, hbb, hrr, haT, hbT, he]

/-- No instruction ever deletes a bounty record. -/
theorem execOp_bounty_exists (w : World) (op : Op) (k : Nat) (b : Bounty)
    (hb : w.bounties k = some b) :
    ∃ b', (execOp w op).bounties k = some b' := by
  cases hE : execOpE w op with
  | error e =>
    rw [execOp_of_error w op e hE]
    exact ⟨b, hb⟩
  | ok w2 =>
    rw [execOp_of_ok w op w2 hE]
    cases op with
    | attest sid h a now bp =>
        obtain ⟨-, -, hbs, -, -⟩ := attest_step_ok_inv w sid h a now bp w2 hE
        rw [hbs]
        exact ⟨b, hb⟩
    | submit a bAddr attId h rb =>
        obtain ⟨bounty, att, b2, r2, -, -, -, -, -, hbs, -⟩ :=
          submit_step_ok_inv w a bAddr attId h rb w2 hE
        rw [hbs]
        by_cases hk : k = bAddr
        · exact ⟨b2, by simp [hk]⟩
        · exact ⟨b, by simp [hk, hb]⟩
    | settle c bAddr a atA btA m =>
        obtain ⟨bounty, rep, aT, bT, b2, r2, aT2, bT2, -, -, -, -, -, -,
          hbs, -, -⟩ := settle_step_ok_inv w c bAddr a atA btA m w2 hE
        rw [hbs]
        by_cases hk : k = bAddr
        · exact ⟨b2, by simp [hk]⟩
        · exact ⟨b, by simp [hk, hb]⟩

/-- No instruction ever deletes or replaces an existing attestation. -/
theorem execOp_attestation_frozen (w : World) (op : Op) (sid : Nat)
    (att : Attestation) (ha : w.attestations sid = some att) :
    (execOp w op).attestations sid = some att := by
  cases hE : execOpE w op with
  | error e =>
    rw [execOp_of_error w op e hE]
    exact ha
  | ok w2 =>
    rw [execOp_of_ok w op w2 hE]
    cases op with
    | attest sid2 h a now bp =>
        obtain ⟨hnone, has, -, -, -⟩ :=
          attest_step_ok_inv w sid2 h a now bp w2 hE
        rw [has]
        by_cases hk : sid = sid2
        · rw [hk] at ha
          rw [ha] at hnone
          cases hnone
        · simp [hk, ha]
    | submit a bAddr attId h rb =>
        obtain ⟨-, -, -, -, -, -, -, has, -, -, -⟩ :=
          submit_step_ok_inv w a bAddr attId h rb w2 hE
        rw [has]
        exact ha
    | settle c bAddr a atA btA m =>
        obtain ⟨-, -, -, -, -, -, -, -, -, -, -, -, -, has, -, -, -⟩ :=
          settle_step_ok_inv w c bAddr a atA btA m w2 hE
        rw [has]
        exact ha

/-- Signer sanity for an instruction: a submit is signed by a real
(nonzero) agent key. The all-zero key is `Pubkey::default()`, which no
transaction can be signed with. -/
def submitSignerNonzero : Op → Prop
  | .submit a _ _ _ _ => a ≠ 0
  | _ => True

/-- Reputation-record sanity: a reputation record stored at the address
derived from an agent key carries that agent key in its `agent` field
(it was created by `submit_solution` with `agent := caller`). -/
def repAgentInv (w : World) : Prop :=
  ∀ k r, w.reputations k = some r → r.agent = k

/-- Across any instruction, an existing reputation record survives and
each of its four counters is monotonically non-decreasing. -/
theorem execOp_reputation_mono (w : World) (op : Op) (k : Nat)
    (r : Reputation) (hinv : repAgentInv w) (hsig : submitSignerNonzero op)
    (hr : w.reputations k = some r) :
    ∃ r', (execOp w op).reputations k = some r' ∧
      r.score ≤ r'.score ∧
      r.successful_bounties ≤ r'.successful_bounties ∧
      r.failed_bounties ≤ r'.failed_bounties ∧
      r.total_earned ≤ r'.total_earned := by
  cases hE : execOpE w op with
  | error e =>
    rw [execOp_of_error w op e hE]
    exact ⟨r, hr, le_refl _, le_refl _, le_refl _, le_refl _⟩
  | ok w2 =>
    rw [execOp_of_ok w op w2 hE]
    cases op with
    | attest sid h a now bp =>
        obtain ⟨-, -, -, hreps, -⟩ := attest_step_ok_inv w sid h a now bp w2 hE
        rw [hreps]
        exact ⟨r, hr, le_refl _, le_refl _, le_refl _, le_refl _⟩
    | submit a bAddr attId h rb =>
        obtain ⟨bounty, att, b2, r2, -, -, htx, -, -, -, hreps⟩ :=
          submit_step_ok_inv w a bAddr attId h rb w2 hE
        rw [hreps]
        by_cases hk : k = a
        · have hr' : w.reputations a = some r := hk ▸ hr
          rw [hr'] at htx
          have hag : r.agent = k := hinv k r hr
          have hag' : ((some r).getD defaultReputation).agent ≠ 0 := by
            simp [Option.getD, hag, hk]
            exact hk ▸ hsig
          have hshape := submit_tx_ok_rep_old a bounty att (some r) h rb
            b2 r2 htx hag'
          refine ⟨r2, by simp [hk], ?_, ?_, ?_, ?_⟩ <;>
            simp [hshape, Option.getD]
        · exact ⟨r, by simp [hk, hr], le_refl _, le_refl _, le_refl _,
            le_refl _⟩
    | settle c bAddr a atA btA m =>
        obtain ⟨bounty, rep, aT, bT, b2, r2, aT2, bT2, -, hrr, -, -, htx,
          -, -, hreps, -⟩ := settle_step_ok_inv w c bAddr a atA btA m w2 hE
        rw [hreps]
        by_cases hk : k = a
        · have hr' : w.reputations a = some r := hk ▸ hr
          rw [hr'] at hrr
          cases hrr
          have hshape := (settle_tx_ok_shape c bAddr bounty r a aT bT m
            b2 r2 aT2 bT2 htx).2.1
          refine ⟨r2, by simp [hk], ?_, ?_, ?_, ?_⟩ <;> simp [hshape]
        · exact ⟨r, by simp [hk, hr], le_refl _, le_refl _, le_refl _,
            le_refl _⟩

/-! ### Concrete accounts and states used by witnesses and scenarios -/

/-- Bounty 42: creator key 3, reward 100, open, no solution yet. -/
def bountyOpen42 : Bounty :=
  { id := 42, creator := 3, reward := 100, status := .Open
    solution_hash := none, bump := 0 }

/-- Bounty 43: creator key 3, reward 50, open, no solution yet. -/
def bountyOpen43 : Bounty :=
  { id := 43, creator := 3, reward := 50, status := .Open
    solution_hash := none, bump := 0 }

/-- Bounty 42 after a submit of hash 111. -/
def bountySub42 : Bounty :=
  { id := 42, creator := 3, reward := 100, status := .Submitted
    solution_hash := some 111, bump := 0 }

/-- Bounty 42 after settlement. -/
def bountySettled42 : Bounty :=
  { id := 42, creator := 3, reward := 100, status := .Settled
    solution_hash := some 111, bump := 0 }

/-- Agent 1's attestation for task 7 with solution hash 111. -/
def attA7 : Attestation :=
  { solution_id := 7, solution_hash := 111, timestamp := 0, agent := 1
    verified := false, bump := 0 }

/-- A reputation record for agent 1 whose score sits at the `u64` max. -/
def repScoreMax : Reputation :=
  { agent := 1, score := U64MAX, successful_bounties := 0
    failed_bounties := 0, total_earned := 0, bump := 0 }

/-- A reputation record for agent 2 whose `successful_bounties` counter
sits at the `u64` max. -/
def repSbMax : Reputation :=
  { agent := 2, score := 1, successful_bounties := U64MAX
    failed_bounties := 0, total_earned := 0, bump := 0 }

/-- An ordinary reputation record for agent 2. -/
def repB : Reputation :=
  { agent := 2, score := 1, successful_bounties := 0
    failed_bounties := 0, total_earned := 0, bump := 0 }

/-- Agent 1's USDC (mint 9) token account. -/
def tokA : TokenAccount := { owner := 1, mint := 9, amount := 0 }

/-- Agent 2's USDC token account. -/
def tokB : TokenAccount := { owner := 2, mint := 9, amount := 0 }

/-- Bounty 42's funded escrow token account (owner is the bounty
address 42). -/
def tokEscrow42 : TokenAccount := { owner := 42, mint := 9, amount := 100 }

/-- An initial ledger: two freshly created open bounties at addresses 42
and 43, their funding in place, no attestations, no reputations. Token
account addresses: 10 is bounty 42's escrow, 11 is agent 2's account,
12 is agent 1's account. -/
def w0 : World where
  attestations := fun _ => none
  bounties := fun k =>
    if k = 42 then some bountyOpen42
    else if k = 43 then some bountyOpen43 else none
  reputations := fun _ => none
  tokenAccounts := fun k =>
    if k = 10 then some tokEscrow42
    else if k = 11 then some tokB
    else if k = 12 then some tokA else none

/-- A state whose bounty 42 is already `Submitted`, with agent 1's
attestation and reputation present. -/
def wSub : World where
  attestations := fun i => if i = 7 then some attA7 else none
  bounties := fun k => if k = 42 then some bountySub42 else none
  reputations := fun k => if k = 1 then
      some { agent := 1, score := 1, successful_bounties := 0
             failed_bounties := 0, total_earned := 0, bump := 0 }
    else none
  tokenAccounts := fun k =>
    if k = 10 then some tokEscrow42 else if k = 12 then some tokA else none

/-- A state whose bounty 42 is already `Settled`. -/
def wSettled : World where
  attestations := fun i => if i = 7 then some attA7 else none
  bounties := fun k => if k = 42 then some bountySettled42 else none
  reputations := fun k => if k = 2 then some repB else none
  tokenAccounts := fun k =>
    if k = 10 then some tokEscrow42 else if k = 11 then some tokB else none

/-! ### Claims -/

/-- C1: Bounty.status only ever moves forward along
`Open → Submitted → Settled`: every instruction either leaves a bounty
record untouched or advances it along exactly one edge of that chain
(first conjunct); a `Settled` bounty is never changed by any instruction
(second conjunct); any failing instruction leaves the entire state
unchanged (third conjunct); a submit against a bounty that is not `Open`
(for instance already `Submitted` or `Settled`) fails with
`BountyNotOpen` (fourth conjunct); and a settle against a bounty that is
not `Submitted` (for instance already `Settled`) fails with
`BountyNotSubmitted` (fifth conjunct). -/
theorem C1_bounty_state_machine :
    (∀ w op k b b', w.bounties k = some b →
        (execOp w op).bounties k = some b' →
        (b' = b ∨ (b.status = .Open ∧ b'.status = .Submitted) ∨
         (b.status = .Submitted ∧ b'.status = .Settled))) ∧
    (∀ w op k b, w.bounties k = some b → b.status = .Settled →
        (execOp w op).bounties k = some b) ∧
    (∀ w op e, execOpE w op = .error e → execOp w op = w) ∧
    (∀ w a bAddr attId h rb b att, w.bounties bAddr = some b →
        w.attestations attId = some att → b.status ≠ .Open →
        execOpE w (.submit a bAddr attId h rb) =
          .error .BountyNotOpen) ∧
    (∀ w c bAddr a atA btA m b rep aT bT, w.bounties bAddr = some b →
        w.reputations a = some rep → w.tokenAccounts atA = some aT →
        w.tokenAccounts btA = some bT → b.status ≠ .Submitted →
        execOpE w (.settle c bAddr a atA btA m) =
          .error .BountyNotSubmitted) := by
  refine ⟨execOp_bounty_transition, ?_, execOp_of_error, ?_, ?_⟩
  · intro w op k b hb hst
    obtain ⟨b', hb'⟩ := execOp_bounty_exists w op k b hb
    rcases execOp_bounty_transition w op k b b' hb hb' with he | hop | hsu
    · rw [hb', he]
    · rw [hst] at hop
      cases hop.1
    · rw [hst] at hsu
      cases hsu.1
  · intro w a bAddr attId h rb b att hbb haa hst
    exact submit_step_err_of_tx w a bAddr attId h rb b att _ hbb haa
      (submit_tx_err_notOpen a b att (w.reputations a) h rb hst)
  · intro w c bAddr a atA btA m b rep aT bT hbb hrr haT hbT hst
    exact settle_step_err_of_tx w c bAddr a atA btA m b rep aT bT _
      hbb hrr haT hbT
      (settle_tx_err_notSubmitted c bAddr b rep a aT bT m hst)

/-- Witness for C1 at concrete states: an attest leaves a submitted
bounty untouched, a settle on a settled bounty fails with
`BountyNotSubmitted` and changes nothing, and a second submit on a
submitted bounty fails with `BountyNotOpen`. -/
theorem C1_bounty_state_machine_witness :
    (bountySub42 = bountySub42 ∨
     (bountySub42.status = .Open ∧ bountySub42.status = .Submitted) ∨
     (bountySub42.status = .Submitted ∧
      bountySub42.status = .Settled)) ∧
    (execOp wSettled (.settle 3 42 2 11 10 9)).bounties 42 =
      some bountySettled42 ∧
    execOp wSettled (.settle 3 42 2 11 10 9) = wSettled ∧
    execOpE wSub (.submit 1 42 7 111 0) = .error .BountyNotOpen ∧
    execOpE wSettled (.settle 3 42 2 11 10 9) =
      .error .BountyNotSubmitted :=
  ⟨C1_bounty_state_machine.1 wSub (.attest 8 5 2 0 0) 42 bountySub42
      bountySub42 (by decide) (by decide),
   C1_bounty_state_machine.2.1 wSettled (.settle 3 42 2 11 10 9) 42
      bountySettled42 (by decide) (by decide),
   C1_bounty_state_machine.2.2.1 wSettled (.settle 3 42 2 11 10 9)
      .BountyNotSubmitted rfl,
   C1_bounty_state_machine.2.2.2.1 wSub 1 42 7 111 0 bountySub42 attA7
      (by decide) (by decide) (by decide),
   C1_bounty_state_machine.2.2.2.2 wSettled 3 42 2 11 10 9
      bountySettled42 repB tokB tokEscrow42 (by decide) (by decide)
      (by decide) (by decide) (by decide)⟩

/-- C2 counterexample: a settle call on a `Submitted` bounty by its
creator can still fail — here the supplied reputation record belongs to
agent 2 while the supplied payee is agent 1 — so "settle succeeds if and
only if status is Submitted and the caller is the creator" is false as
stated. -/
theorem C2_settle_iff_counterexample :
    bountySub42.status = .Submitted ∧ (3 : Nat) = bountySub42.creator ∧
    settle_bounty_tx 3 42 bountySub42 repB 1 tokA tokEscrow42 9 =
      .error .ReputationOwnerMismatch :=
  ⟨rfl, rfl, rfl⟩

/-- C2 (amended): settle succeeds iff the bounty is `Submitted` with a
solution hash, the caller is the creator, the reputation record belongs
to the supplied agent, both token accounts have the expected owner and
mint, the escrow covers the reward, and neither the payee balance nor
the reputation counters overflow; and on success the escrow decreases
by exactly `reward`, the payee balance increases by exactly `reward`,
`successful_bounties` increases by 1, `total_earned` by `reward`, and
the status becomes `Settled`. -/
theorem C2_settle_spec :
    (∀ c bk b r a aT bT m,
      (∃ out, settle_bounty_tx c bk b r a aT bT m = .ok out) ↔
        (b.status = .Submitted ∧ (b.solution_hash).isSome ∧
         c = b.creator ∧ r.agent = a ∧
         aT.owner = a ∧ aT.mint = m ∧ bT.owner = bk ∧ bT.mint = m ∧
         b.reward ≤ bT.amount ∧ aT.amount + b.reward ≤ U64MAX ∧
         r.successful_bounties + 1 ≤ U64MAX ∧
         r.total_earned + b.reward ≤ U64MAX)) ∧
    (∀ c bk b r a aT bT m b' r' aT' bT',
      settle_bounty_tx c bk b r a aT bT m = .ok (b', r', aT', bT') →
        bT'.amount + b.reward = bT.amount ∧
        aT'.amount = aT.amount + b.reward ∧
        r'.successful_bounties = r.successful_bounties + 1 ∧
        r'.total_earned = r.total_earned + b.reward ∧
        b'.status = .Settled) := by
  refine ⟨settle_tx_ok_iff, ?_⟩
  intro c bk b r a aT bT m b' r' aT' bT' hok
  have h9 := ((settle_tx_ok_iff c bk b r a aT bT m).mp
    ⟨(b', r', aT', bT'), hok⟩).2.2.2.2.2.2.2.2.1
  obtain ⟨hb, hr, haT, hbT⟩ :=
    settle_tx_ok_shape c bk b r a aT bT m b' r' aT' bT' hok
  refine ⟨?_, by rw [haT], by rw [hr], by rw [hr], by rw [hb]⟩
  rw [hbT]
  exact Nat.sub_add_cancel h9

/-- Witness for C2 at a concrete successful settlement by the creator
paying agent 2. -/
theorem C2_settle_spec_witness :
    ((∃ out, settle_bounty_tx 3 42 bountySub42 repB 2 tokB tokEscrow42 9
        = .ok out) ↔
      (bountySub42.status = .Submitted ∧
       (bountySub42.solution_hash).isSome ∧
       (3 : Nat) = bountySub42.creator ∧ repB.agent = 2 ∧
       tokB.owner = 2 ∧ tokB.mint = 9 ∧ tokEscrow42.owner = 42 ∧
       tokEscrow42.mint = 9 ∧
       bountySub42.reward ≤ tokEscrow42.amount ∧
       tokB.amount + bountySub42.reward ≤ U64MAX ∧
       repB.successful_bounties + 1 ≤ U64MAX ∧
       repB.total_earned + bountySub42.reward ≤ U64MAX)) ∧
    (({ owner := 42, mint := 9, amount := 0 } :
        TokenAccount).amount + bountySub42.reward = tokEscrow42.amount ∧
     ({ owner := 2, mint := 9, amount := 100 } :
        TokenAccount).amount = tokB.amount + bountySub42.reward ∧
     ({ agent := 2, score := 1, successful_bounties := 1
        failed_bounties := 0, total_earned := 100, bump := 0 } :
        Reputation).successful_bounties = repB.successful_bounties + 1 ∧
     ({ agent := 2, score := 1, successful_bounties := 1
        failed_bounties := 0, total_earned := 100, bump := 0 } :
        Reputation).total_earned = repB.total_earned + bountySub42.reward ∧
     bountySettled42.status = .Settled) :=
  ⟨C2_settle_spec.1 3 42 bountySub42 repB 2 tokB tokEscrow42 9,
   C2_settle_spec.2 3 42 bountySub42 repB 2 tokB tokEscrow42 9
     bountySettled42 _ _ _ rfl⟩

/-- C3 counterexample: all four named submit preconditions hold (bounty
`Open` with no hash, the caller's attestation carries the submitted
hash) yet submit fails, because the caller's existing reputation score
sits at the `u64` maximum — so the four conditions alone are not
sufficient for success. -/
theorem C3_submit_iff_counterexample :
    bountyOpen42.status = .Open ∧ bountyOpen42.solution_hash = none ∧
    attA7.agent = 1 ∧ attA7.solution_hash = 111 ∧
    submit_solution_tx 1 bountyOpen42 attA7 (some repScoreMax) 111 0 =
      .error .ReputationScoreOverflow :=
  ⟨rfl, rfl, rfl, rfl, rfl⟩

/-- C3 (amended): submit succeeds iff the bounty is `Open`, its solution
hash is absent, the attestation's agent is the caller, the attestation's
hash equals the submitted hash, and the reputation upsert does not
overflow (the record is freshly created, or its score increment stays
within `u64`); each single violation of the four named preconditions
fails with its named error, and any failing instruction leaves the whole
state — Bounty and Reputation included — unchanged. -/
theorem C3_submit_spec :
    (∀ a b att repAcc h rb,
      (∃ out, submit_solution_tx a b att repAcc h rb = .ok out) ↔
        (b.status = .Open ∧ b.solution_hash = none ∧ att.agent = a ∧
         att.solution_hash = h ∧
         ((repAcc.getD defaultReputation).agent = 0 ∨
          (repAcc.getD defaultReputation).score + 1 ≤ U64MAX))) ∧
    (∀ a b att repAcc h rb, b.status ≠ .Open →
      submit_solution_tx a b att repAcc h rb = .error .BountyNotOpen) ∧
    (∀ a b att repAcc h rb, b.status = .Open →
      (b.solution_hash).isSome →
      submit_solution_tx a b att repAcc h rb =
        .error .BountyAlreadySubmitted) ∧
    (∀ a b att repAcc h rb, b.status = .Open → b.solution_hash = none →
      att.agent ≠ a →
      submit_solution_tx a b att repAcc h rb =
        .error .AttestationOwnerMismatch) ∧
    (∀ a b att repAcc h rb, b.status = .Open → b.solution_hash = none →
      att.agent = a → att.solution_hash ≠ h →
      submit_solution_tx a b att repAcc h rb =
        .error .SolutionHashMismatch) ∧
    (∀ w op e, execOpE w op = .error e → execOp w op = w) :=
  ⟨submit_tx_ok_iff, submit_tx_err_notOpen, submit_tx_err_alreadySubmitted,
   submit_tx_err_owner, submit_tx_err_hash, execOp_of_error⟩

/-- Witness for C3 at concrete inputs: the success characterization at a
succeeding submit, a hash-mismatch failure, and the no-change frame of a
failed state-level submit. -/
theorem C3_submit_spec_witness :
    ((∃ out, submit_solution_tx 1 bountyOpen42 attA7 none 111 0 = .ok out)
      ↔ (bountyOpen42.status = .Open ∧
         bountyOpen42.solution_hash = none ∧ attA7.agent = 1 ∧
         attA7.solution_hash = 111 ∧
         (((none : Option Reputation).getD defaultReputation).agent = 0 ∨
          ((none : Option Reputation).getD
            defaultReputation).score + 1 ≤ U64MAX))) ∧
    submit_solution_tx 1 bountyOpen42 attA7 none 999 0 =
      .error .SolutionHashMismatch ∧
    execOp wSub (.submit 1 42 7 111 0) = wSub :=
  ⟨C3_submit_spec.1 1 bountyOpen42 attA7 none 111 0,
   C3_submit_spec.2.2.2.2.1 1 bountyOpen42 attA7 none 999 0 rfl rfl rfl
     (by decide),
   C3_submit_spec.2.2.2.2.2 wSub (.submit 1 42 7 111 0) .BountyNotOpen
     rfl⟩

/-- C4: after a successful submit of hash `h`, the bounty is `Submitted`
with `solution_hash = some h`, and the caller's reputation score is one
more than before — or the record was just created with score 1 and all
other counters 0. The two hypotheses record runtime facts: the
reputation account is the PDA derived from the caller's key (so an
existing record carries the caller as `agent`), and a signer key is
never `Pubkey::default()`. -/
theorem C4_submit_success (a : Nat) (b : Bounty) (att : Attestation)
    (repAcc : Option Reputation) (h rb : Nat) (b' : Bounty)
    (r' : Reputation)
    (hok : submit_solution_tx a b att repAcc h rb = .ok (b', r'))
    (hpda : ∀ r, repAcc = some r → r.agent = a) (ha : a ≠ 0) :
    b'.status = .Submitted ∧ b'.solution_hash = some h ∧
    ((repAcc = none ∧
      r' = { agent := a, score := 1, successful_bounties := 0
             failed_bounties := 0, total_earned := 0, bump := rb }) ∨
     (∃ r, repAcc = some r ∧ r'.score = r.score + 1 ∧
        r'.agent = r.agent ∧
        r'.successful_bounties = r.successful_bounties ∧
        r'.failed_bounties = r.failed_bounties ∧
        r'.total_earned = r.total_earned)) := by
  have hb := submit_tx_ok_bounty a b att repAcc h rb b' r' hok
  refine ⟨by rw [hb], by rw [hb], ?_⟩
  cases hrep : repAcc with
  | none =>
      rw [hrep] at hok
      exact Or.inl ⟨rfl, submit_tx_ok_rep_new a b att none h rb b' r' hok
        (by simp [defaultReputation])⟩
  | some r =>
      rw [hrep] at hok
      have hag : r.agent = a := hpda r hrep
      have hshape := submit_tx_ok_rep_old a b att (some r) h rb b' r' hok
        (by simp [hag, ha])
      simp only [Option.getD] at hshape
      exact Or.inr ⟨r, rfl, by simp [hshape]⟩

/-- Witness for C4: a concrete first submit (record created with
score 1) via the theorem itself. -/
theorem C4_submit_success_witness :
    bountySub42.status = .Submitted ∧
    bountySub42.solution_hash = some 111 ∧
    (((none : Option Reputation) = none ∧
      ({ agent := 1, score := 1, successful_bounties := 0
         failed_bounties := 0, total_earned := 0, bump := 0 } :
        Reputation) =
        { agent := 1, score := 1, successful_bounties := 0
          failed_bounties := 0, total_earned := 0, bump := 0 }) ∨
     (∃ r, (none : Option Reputation) = some r ∧
        ({ agent := 1, score := 1, successful_bounties := 0
           failed_bounties := 0, total_earned := 0, bump := 0 } :
          Reputation).score = r.score + 1 ∧
        ({ agent := 1, score := 1, successful_bounties := 0
           failed_bounties := 0, total_earned := 0, bump := 0 } :
          Reputation).agent = r.agent ∧
        ({ agent := 1, score := 1, successful_bounties := 0
           failed_bounties := 0, total_earned := 0, bump := 0 } :
          Reputation).successful_bounties = r.successful_bounties ∧
        ({ agent := 1, score := 1, successful_bounties := 0
           failed_bounties := 0, total_earned := 0, bump := 0 } :
          Reputation).failed_bounties = r.failed_bounties ∧
        ({ agent := 1, score := 1, successful_bounties := 0
           failed_bounties := 0, total_earned := 0, bump := 0 } :
          Reputation).total_earned = r.total_earned)) :=
  C4_submit_success 1 bountyOpen42 attA7 none 111 0 bountySub42
    { agent := 1, score := 1, successful_bounties := 0
      failed_bounties := 0, total_earned := 0, bump := 0 }
    rfl (fun r hr => by cases hr) (by decide)

/-- C5: transactional atomicity. Any failing instruction commits no
state change at all (first conjunct). The remaining conjuncts exhibit
that the rollback does real work, at concrete inputs: in submit, the raw
handler has already written the bounty's hash and status when the score
overflow check fails, yet the transaction reports only the error; in
settle, the raw handler has already moved the full reward out of the
escrow when the reputation overflow check fails — the transfer precedes
the bookkeeping — yet the transaction reports only the error, so no
partial effect is ever observable. -/
theorem C5_atomicity :
    (∀ w op e, execOpE w op = .error e → execOp w op = w) ∧
    (submit_solution_raw 1 bountyOpen42 attA7 (some repScoreMax) 111 0 =
       (some .ReputationScoreOverflow,
        { bountyOpen42 with solution_hash := some 111
                            status := .Submitted },
        repScoreMax) ∧
     submit_solution_tx 1 bountyOpen42 attA7 (some repScoreMax) 111 0 =
       .error .ReputationScoreOverflow) ∧
    (settle_bounty_raw 3 42 bountySub42 repSbMax 2 tokB tokEscrow42 9 =
       (some .ReputationOverflow, bountySub42, repSbMax,
        { tokB with amount := 100 }, { tokEscrow42 with amount := 0 }) ∧
     settle_bounty_tx 3 42 bountySub42 repSbMax 2 tokB tokEscrow42 9 =
       .error .ReputationOverflow) :=
  ⟨execOp_of_error, ⟨rfl, rfl⟩, ⟨rfl, rfl⟩⟩

/-- Witness for C5: a failed state-level submit leaves the state
untouched. -/
theorem C5_atomicity_witness :
    execOp wSub (.submit 1 42 7 111 0) = wSub :=
  C5_atomicity.1 wSub (.submit 1 42 7 111 0) .BountyNotOpen rfl

/-- C6: at most one attestation can ever exist per task id. A second
attest on a task id that already has a record fails with
`DuplicateAttestation`, whatever the hash or caller (first conjunct); an
existing attestation is never modified or replaced by any instruction
(second conjunct); and the first attest on a fresh task id creates the
record (third conjunct). -/
theorem C6_attest_unique :
    (∀ w sid h a now bp att, w.attestations sid = some att →
        execOpE w (.attest sid h a now bp) =
          .error .DuplicateAttestation) ∧
    (∀ w op sid att, w.attestations sid = some att →
        (execOp w op).attestations sid = some att) ∧
    (∀ w sid h a now bp, w.attestations sid = none →
        ∃ w', execOpE w (.attest sid h a now bp) = .ok w' ∧
          w'.attestations sid =
            some { solution_id := sid, solution_hash := h
                   timestamp := now, agent := a, verified := false
                   bump := bp }) := by
  refine ⟨?_, execOp_attestation_frozen, ?_⟩
  · intro w sid h a now bp att hatt
    simp [execOpE, attest_solution_step, hatt]
  · intro w sid h a now bp hnone
    refine ⟨{ w with attestations := fun i =>
      if i = sid then some ⟨sid, h, now, a, false, bp⟩
      else w.attestations i }, ?_, ?_⟩
    · simp [execOpE, attest_solution_step, hnone]
    · simp

/-- Witness for C6: a duplicate attest on task 7 (different hash,
different caller) fails and leaves agent 1's attestation in place; a
fresh attest on task 7 in the empty registry creates the record. -/
theorem C6_attest_unique_witness :
    execOpE wSub (.attest 7 999 2 5 0) = .error .DuplicateAttestation ∧
    (execOp wSub (.attest 7 999 2 5 0)).attestations 7 = some attA7 ∧
    (∃ w', execOpE w0 (.attest 7 111 1 0 0) = .ok w' ∧
      w'.attestations 7 =
        some { solution_id := 7, solution_hash := 111, timestamp := 0
               agent := 1, verified := false, bump := 0 }) :=
  ⟨C6_attest_unique.1 wSub 7 999 2 5 0 attA7 (by decide),
   C6_attest_unique.2.1 wSub (.attest 7 999 2 5 0) 7 attA7 (by decide),
   C6_attest_unique.2.2 w0 7 111 1 0 0 (by decide)⟩

/-- A reputation record for agent 2 whose `total_earned` counter sits at
the `u64` max. -/
def repTeMax : Reputation :=
  { agent := 2, score := 1, successful_bounties := 0
    failed_bounties := 0, total_earned := U64MAX, bump := 0 }

/-- C7: every reputation counter is monotonically non-decreasing across
every instruction (first conjunct, under the runtime facts that stored
reputation records carry their deriving agent key and submit signers are
nonzero); a submit against a score already at the `u64` maximum fails
with `ReputationScoreOverflow` (second conjunct); a settle that would
overflow `successful_bounties` or `total_earned` fails with
`ReputationOverflow` instead of wrapping (third and fourth conjuncts);
and any failing instruction leaves all state, the counters included,
unchanged (fifth conjunct). -/
theorem C7_counters_monotone :
    (∀ w op k r, repAgentInv w → submitSignerNonzero op →
        w.reputations k = some r →
        ∃ r', (execOp w op).reputations k = some r' ∧
          r.score ≤ r'.score ∧
          r.successful_bounties ≤ r'.successful_bounties ∧
          r.failed_bounties ≤ r'.failed_bounties ∧
          r.total_earned ≤ r'.total_earned) ∧
    (∀ a b att r h rb, b.status = .Open → b.solution_hash = none →
        att.agent = a → att.solution_hash = h → r.agent = a → a ≠ 0 →
        r.score = U64MAX →
        submit_solution_tx a b att (some r) h rb =
          .error .ReputationScoreOverflow) ∧
    (∀ c bk b r a aT bT m, b.status = .Submitted →
        (b.solution_hash).isSome → c = b.creator → r.agent = a →
        aT.owner = a → aT.mint = m → bT.owner = bk → bT.mint = m →
        b.reward ≤ bT.amount → aT.amount + b.reward ≤ U64MAX →
        r.successful_bounties = U64MAX →
        settle_bounty_tx c bk b r a aT bT m =
          .error .ReputationOverflow) ∧
    (∀ c bk b r a aT bT m, b.status = .Submitted →
        (b.solution_hash).isSome → c = b.creator → r.agent = a →
        aT.owner = a → aT.mint = m → bT.owner = bk → bT.mint = m →
        b.reward ≤ bT.amount → aT.amount + b.reward ≤ U64MAX →
        r.successful_bounties + 1 ≤ U64MAX →
        U64MAX < r.total_earned + b.reward →
        settle_bounty_tx c bk b r a aT bT m =
          .error .ReputationOverflow) ∧
    (∀ w op e, execOpE w op = .error e → execOp w op = w) := by
  refine ⟨execOp_reputation_mono, ?_, ?_, ?_, execOp_of_error⟩
  · intro a b att r h rb hst hh hag hsh hra ha hsc
    refine submit_tx_err_overflow a b att (some r) h rb hst hh hag hsh
      (by simp [hra, ha]) (by simp [hsc])
  · intro c bk b r a aT bT m hst hh hc hra h5 h6 h7 h8 h9 h10 hsb
    exact settle_tx_err_overflow_sb c bk b r a aT bT m hst hh hc hra h5
      h6 h7 h8 h9 h10 (by rw [hsb]; exact Nat.lt_succ_self _)
  · intro c bk b r a aT bT m hst hh hc hra h5 h6 h7 h8 h9 h10 h11 hte
    exact settle_tx_err_overflow_te c bk b r a aT bT m hst hh hc hra h5
      h6 h7 h8 h9 h10 h11 hte

/-- Witness for C7 at concrete inputs: monotonicity across an attest,
and the three overflow failures. -/
theorem C7_counters_monotone_witness :
    (∃ r', (execOp wSettled (.attest 8 5 1 0 0)).reputations 2 =
        some r' ∧
      repB.score ≤ r'.score ∧
      repB.successful_bounties ≤ r'.successful_bounties ∧
      repB.failed_bounties ≤ r'.failed_bounties ∧
      repB.total_earned ≤ r'.total_earned) ∧
    submit_solution_tx 1 bountyOpen42 attA7 (some repScoreMax) 111 0 =
      .error .ReputationScoreOverflow ∧
    settle_bounty_tx 3 42 bountySub42 repSbMax 2 tokB tokEscrow42 9 =
      .error .ReputationOverflow ∧
    settle_bounty_tx 3 42 bountySub42 repTeMax 2 tokB tokEscrow42 9 =
      .error .ReputationOverflow :=
  ⟨C7_counters_monotone.1 wSettled (.attest 8 5 1 0 0) 2 repB
      (by
        intro k r hr
        by_cases hk : k = 2
        · subst hk
          simp [wSettled] at hr
          simp [← hr, repB]
        · simp [wSettled, hk] at hr)
      (by trivial) (by decide),
   C7_counters_monotone.2.1 1 bountyOpen42 attA7 repScoreMax 111 0
      rfl rfl rfl rfl rfl (by decide) rfl,
   C7_counters_monotone.2.2.1 3 42 bountySub42 repSbMax 2 tokB
      tokEscrow42 9 rfl rfl rfl rfl rfl rfl rfl rfl (by decide)
      (by decide) rfl,
   C7_counters_monotone.2.2.2.1 3 42 bountySub42 repTeMax 2 tokB
      tokEscrow42 9 rfl rfl rfl rfl rfl rfl rfl rfl (by decide)
      (by decide) (by decide) (by decide)⟩

/-- The state after agent 1 attests task 7 against the initial ledger. -/
def w0a : World where
  attestations := fun i => if i = 7 then
      some { solution_id := 7, solution_hash := 111, timestamp := 0
             agent := 1, verified := false, bump := 0 }
    else w0.attestations i
  bounties := w0.bounties
  reputations := w0.reputations
  tokenAccounts := w0.tokenAccounts

/-- C8: a successful attest records the caller as `agent`, the clock
time as `timestamp` and `verified = false` in the one record it creates,
and has no other effect: all other attestations, every bounty, every
reputation and every token account are untouched. -/
theorem C8_attest_effects (w : World) (sid h a : Nat) (now : Int)
    (bp : Nat) (w' : World)
    (hok : attest_solution_step w sid h a now bp = .ok w') :
    w'.attestations sid =
      some { solution_id := sid, solution_hash := h, timestamp := now
             agent := a, verified := false, bump := bp } ∧
    (∀ i, i ≠ sid → w'.attestations i = w.attestations i) ∧
    w'.bounties = w.bounties ∧ w'.reputations = w.reputations ∧
    w'.tokenAccounts = w.tokenAccounts := by
  obtain ⟨hnone, hatts, hb, hr, ht⟩ :=
    attest_step_ok_inv w sid h a now bp w' hok
  exact ⟨by simp [hatts], fun i hi => by simp [hatts, hi], hb, hr, ht⟩

/-- Witness for C8: agent 1's attest of task 7 on the initial ledger. -/
theorem C8_attest_effects_witness :
    w0a.attestations 7 =
      some { solution_id := 7, solution_hash := 111, timestamp := 0
             agent := 1, verified := false, bump := 0 } ∧
    w0a.bounties = w0.bounties ∧ w0a.reputations = w0.reputations ∧
    w0a.tokenAccounts = w0.tokenAccounts :=
  ⟨(C8_attest_effects w0 7 111 1 0 0 w0a rfl).1,
   (C8_attest_effects w0 7 111 1 0 0 w0a rfl).2.2.1,
   (C8_attest_effects w0 7 111 1 0 0 w0a rfl).2.2.2.1,
   (C8_attest_effects w0 7 111 1 0 0 w0a rfl).2.2.2.2⟩

/-- The C9 scenario trace: agent 1 attests task 7 and submits bounty 42
with it; agent 2 attests task 8 and submits bounty 43 with it (which
creates agent 2's reputation record). Agent 2 never submits against
bounty 42. -/
def opsC9 : List Op :=
  [.attest 7 111 1 0 0, .attest 8 222 2 0 0,
   .submit 1 42 7 111 0, .submit 2 43 8 222 0]

/-- The state reached by the C9 trace from the initial ledger. -/
def wC9 : World := runOps w0 opsC9

/-- C9: settle pays whichever agent the creator supplies. From a
reachable state in which bounty 42 was submitted by agent 1 (its stored
hash is agent 1's attested hash) and agent 2 only ever submitted against
bounty 43, the creator's settle of bounty 42 naming agent 2 as payee
succeeds and moves the whole reward to agent 2's token account — the
code ties the payee neither to the attestation, nor to the stored
solution hash, nor to the submitting agent. -/
theorem C9_settle_pays_supplied_agent :
    ((∀ i, w0.attestations i = none) ∧ (∀ k, w0.reputations k = none) ∧
     (∀ k b, w0.bounties k = some b →
        b.status = .Open ∧ b.solution_hash = none)) ∧
    wC9.bounties 42 = some bountySub42 ∧
    wC9.attestations 7 = some attA7 ∧ attA7.agent = 1 ∧ (2 : Nat) ≠ 1 ∧
    (∀ op ∈ opsC9, ∀ attId h rb, op ≠ Op.submit 2 42 attId h rb) ∧
    (∃ w', execOpE wC9 (.settle 3 42 2 11 10 9) = .ok w' ∧
      w'.tokenAccounts 11 =
        some { owner := 2, mint := 9, amount := 100 } ∧
      w'.tokenAccounts 10 =
        some { owner := 42, mint := 9, amount := 0 } ∧
      w'.bounties 42 = some bountySettled42) := by
  refine ⟨⟨fun i => rfl, fun k => rfl, ?_⟩, by decide, by decide,
    by decide, by decide, ?_, ⟨_, rfl, by decide, by decide, by decide⟩⟩
  · intro k b hb
    unfold w0 at hb
    dsimp only at hb
    split_ifs at hb <;> cases hb <;> exact ⟨rfl, rfl⟩
  · intro op hop attId h rb
    simp only [opsC9, List.mem_cons, List.not_mem_nil, or_false] at hop
    rcases hop with rfl | rfl | rfl | rfl <;> simp

/-- The C10 scenario trace: agent 1 attests task 7 and submits it
against bounty 42. -/
def opsC10 : List Op := [.attest 7 111 1 0 0, .submit 1 42 7 111 0]

/-- The state reached by the C10 trace from the initial ledger. -/
def wC10 : World := runOps w0 opsC10

/-- C10: nothing relates an attestation's task id to the bounty it is
submitted against. After agent 1's single attestation for task 7 was
already used to submit bounty 42, the very same attestation record also
successfully submits bounty 43 — a different bounty, for a different
task than the one attested. -/
theorem C10_attestation_reuse :
    wC10.attestations 7 = some attA7 ∧
    wC10.bounties 42 = some bountySub42 ∧
    wC10.bounties 43 = some bountyOpen43 ∧
    attA7.solution_id = 7 ∧ bountyOpen43.id = 43 ∧ bountySub42.id = 42 ∧
    (∃ w', execOpE wC10 (.submit 1 43 7 111 0) = .ok w' ∧
      w'.bounties 43 =
        some { bountyOpen43 with
               status := .Submitted, solution_hash := some 111 } ∧
      w'.bounties 42 = some bountySub42) := by
  refine ⟨by decide, by decide, by decide, rfl, rfl, rfl,
    ⟨_, rfl, by decide, by decide⟩⟩

end BountyForge
